import Mathlib

/-!
Shallow embedding of the math core of the pixi5-dart repository
(lib/src/math: Matrix, Transform, ObservablePoint, Point).

Numbers: the Dart `num` values flowing through this core are doubles; we
embed them as exact rationals.  The only double behaviour that matters to
the claims beyond exact arithmetic is the non-finite (Infinity/NaN) results
produced by dividing by a zero determinant; for the two division sites
(`applyInverse`, `invert`) we track finiteness with `Option ℚ`, where
`none` stands for a non-finite double (Infinity or NaN) and `some q` for
the finite value `q`.  Every arithmetic operation with a non-finite operand
yields a non-finite result on the expressions these methods build
(Inf * 0 = NaN, Inf + x = Inf, Inf - Inf = NaN, ...), which `dAdd`/`dMul`
reflect by propagating `none`.
-/

namespace Pixi

/-- A plain 2-D point value (`Point` from point.dart): coordinates only;
`set` overwrites both coordinates unconditionally. -/
structure Pt where
  x : ℚ
  y : ℚ
deriving DecidableEq, Repr

/-- The 2x3 affine matrix (`Matrix` from matrix.dart, fields a b c d tx ty). -/
structure Matrix where
  a : ℚ
  b : ℚ
  c : ℚ
  d : ℚ
  tx : ℚ
  ty : ℚ
deriving DecidableEq, Repr

/-- Embedding of `new Matrix()`: the default (identity) matrix, a=1, b=0, c=0, d=1, tx=0, ty=0. -/
def Matrix.identityM : Matrix := ⟨1, 0, 0, 1, 0, 0⟩

/-- Addition on embedded doubles: non-finite operands contaminate the sum. -/
def dAdd : Option ℚ → Option ℚ → Option ℚ
  | some a, some b => some (a + b)
  | _, _ => none

/-- Multiplication on embedded doubles: non-finite operands contaminate the
product (Infinity * 0 is NaN, hence still non-finite). -/
def dMul : Option ℚ → Option ℚ → Option ℚ
  | some a, some b => some (a * b)
  | _, _ => none

/-- Division on embedded doubles: a finite value divided by zero is
Infinity or NaN (non-finite), exactly the behaviour of Dart doubles at the
determinant-zero sites; otherwise exact division. -/
def dDiv : Option ℚ → Option ℚ → Option ℚ
  | some a, some b => if b = 0 then none else some (a / b)
  | _, _ => none

/-- The pure value computed by `Matrix.apply` (matrix.dart lines 117-126):
x' = a*x + c*y + tx, y' = b*x + d*y + ty. -/
def Matrix.applyVal (m : Matrix) (pos : Pt) : Pt :=
  ⟨m.a * pos.x + m.c * pos.y + m.tx, m.b * pos.x + m.d * pos.y + m.ty⟩

/-- A point whose coordinates are embedded doubles (possibly non-finite):
the output type of `applyInverse`. -/
structure DPt where
  x : Option ℚ
  y : Option ℚ
deriving DecidableEq, Repr

/-- Embedding of `Matrix.applyInverse` (matrix.dart lines 136-149): computes
id = 1.0 / ((a*d) + (c*(-b))) and applies the inverse formulas with that
shared denominator.  The source performs the division unconditionally;
when the determinant is zero, `id` is non-finite and contaminates both
output coordinates. -/
def Matrix.applyInverse (m : Matrix) (pos : Pt) : DPt :=
  let idn : Option ℚ := dDiv (some 1) (some (m.a * m.d + m.c * (-m.b)))
  let x : ℚ := pos.x
  let y : ℚ := pos.y
  ⟨dAdd (dAdd (dMul (dMul (some m.d) idn) (some x))
              (dMul (dMul (some (-m.c)) idn) (some y)))
        (dMul (some (m.ty * m.c - m.tx * m.d)) idn),
   dAdd (dAdd (dMul (dMul (some m.a) idn) (some y))
              (dMul (dMul (some (-m.b)) idn) (some x)))
        (dMul (some (-(m.ty * m.a) + m.tx * m.b)) idn)⟩

/-- A matrix whose fields are embedded doubles (possibly non-finite): the
output type of `invert`. -/
structure DMatrix where
  a : Option ℚ
  b : Option ℚ
  c : Option ℚ
  d : Option ℚ
  tx : Option ℚ
  ty : Option ℚ
deriving DecidableEq, Repr

/-- Embedding of `Matrix.invert` (matrix.dart lines 323-338): n = a1*d1 - b1*c1, then
each field is divided by n with no zero check; with n = 0 every field is
non-finite. -/
def Matrix.invert (m : Matrix) : DMatrix :=
  let n : ℚ := m.a * m.d - m.b * m.c
  ⟨dDiv (some m.d) (some n),
   dDiv (some (-m.b)) (some n),
   dDiv (some (-m.c)) (some n),
   dDiv (some m.a) (some n),
   dDiv (some (m.c * m.ty - m.d * m.tx)) (some n),
   dDiv (some (-(m.a * m.ty - m.b * m.tx))) (some n)⟩

/-- Embedding of `Matrix.set` (matrix.dart lines 60-68).  The six parameters are named
a, b, c, d, tx, ty and shadow the fields of the receiver; each statement
`a = a;` assigns the parameter to itself, so the receiver's fields are
never written.  The embedding mirrors the six self-assignments as
rebindings of the parameters and returns the receiver. -/
def Matrix.set (m : Matrix) (a b c d tx ty : ℚ) : Matrix :=
  let a := a
  let b := b
  let c := c
  let d := d
  let tx := tx
  let ty := ty
  m

/-! ### ObservablePoint (observable_point.dart)

An `ObservablePoint` holds two coordinates and a callback fixed at
construction.  We embed the callback as a state transformer `cb : α → α`
threaded through every operation; each operation returns the new point
together with the new callback state, and invokes `cb` exactly where the
source invokes `callback()`. -/

/-- The coordinate state of an ObservablePoint. -/
structure OPoint where
  x : ℚ
  y : ℚ
deriving DecidableEq, Repr

/-- Embedding of `ObservablePoint.set(x, y)` (observable_point.dart lines 611-623):
writes and fires the callback only when `_x != x || _y != y`. -/
def OPoint.set (p : OPoint) (cb : α → α) (s : α) (x y : ℚ) : OPoint × α :=
  if p.x ≠ x ∨ p.y ≠ y then (⟨x, y⟩, cb s) else (p, s)

/-- Embedding of `ObservablePoint.copyFrom(p)` (lines 631-640): same guard against the
source point's coordinates. -/
def OPoint.copyFrom (p : OPoint) (cb : α → α) (s : α) (q : Pt) : OPoint × α :=
  if p.x ≠ q.x ∨ p.y ≠ q.y then (⟨q.x, q.y⟩, cb s) else (p, s)

/-- The `x=` setter (lines 662-671): fires only when `_x != value`. -/
def OPoint.setX (p : OPoint) (cb : α → α) (s : α) (v : ℚ) : OPoint × α :=
  if p.x ≠ v then (⟨v, p.y⟩, cb s) else (p, s)

/-- The `y=` setter (lines 681-690): fires only when `_y != value`. -/
def OPoint.setY (p : OPoint) (cb : α → α) (s : α) (v : ℚ) : OPoint × α :=
  if p.y ≠ v then (⟨p.x, v⟩, cb s) else (p, s)

/-! ### Transform (transform.dart section of matrix.dart)

The trigonometric and inverse-trigonometric functions of dart:math do not
exist over ℚ; the embedding abstracts them as a bundle of operations.  The
single property assumed of them is that sqrt is non-negative, which holds
of dart:math sqrt on the non-negative inputs (a*a + b*b) it receives here. -/

/-- Abstract dart:math operations over the rational embedding of doubles. -/
structure MathOps where
  cos : ℚ → ℚ
  sin : ℚ → ℚ
  atan2 : ℚ → ℚ → ℚ
  sqrt : ℚ → ℚ
  sqrt_nonneg : ∀ q, 0 ≤ sqrt q

/-- The exact rational value of the double constant `math.PI`
(3.141592653589793 = 884279719003555 / 2^48). -/
def ratPI : ℚ := 884279719003555 / 281474976710656

/-- The full mutable state of a `Transform`: the four observable points,
rotation, the four cached trig scalars, the four version counters, and the
two owned matrices. -/
structure TransformState where
  position : OPoint
  scale : OPoint
  pivot : OPoint
  skew : OPoint
  rotation : ℚ
  cx : ℚ
  sx : ℚ
  cy : ℚ
  sy : ℚ
  localID : ℤ
  currentLocalID : ℤ
  worldID : ℤ
  parentID : ℤ
  localTransform : Matrix
  worldTransform : Matrix
deriving DecidableEq, Repr

namespace TransformState

/-- Embedding of `Transform()` (constructor): both matrices identity, position, scale,
pivot and skew all constructed as `ObservablePoint(_onChange, 0, 0)` --
note scale starts at (0, 0) -- rotation 0, trig cache (cx,sx,cy,sy) =
(1,0,0,1), all four counters 0.  Constructing the observable points does
not run the callback. -/
def initial : TransformState :=
  ⟨⟨0, 0⟩, ⟨0, 0⟩, ⟨0, 0⟩, ⟨0, 0⟩, 0, 1, 0, 0, 1, 0, 0, 0, 0,
   Matrix.identityM, Matrix.identityM⟩

/-- Embedding of `Transform._onChange` (lines 462-465): the callback wired to all four
observable points; it only increments `_localID`. -/
def onChange (t : TransformState) : TransformState :=
  { t with localID := t.localID + 1 }

/-- Embedding of `Transform._updateSkew` (lines 472-480): recomputes the four cached
trig scalars from the current rotation and skew, then increments
`_localID`. -/
def updateSkew (ops : MathOps) (t : TransformState) : TransformState :=
  { t with
    cx := ops.cos (t.rotation + t.skew.y)
    sx := ops.sin (t.rotation + t.skew.y)
    cy := -ops.sin (t.rotation - t.skew.x)
    sy := ops.cos (t.rotation - t.skew.x)
    localID := t.localID + 1 }

/-- The rotation setter (lines 572-576): stores the value unconditionally,
then recomputes the trig cache (the source's `updateSkew()` call, i.e.
`_updateSkew`). -/
def setRotation (ops : MathOps) (t : TransformState) (v : ℚ) : TransformState :=
  updateSkew ops { t with rotation := v }

/-- Embedding of `transform.position.set(x, y)`: the ObservablePoint `set` guard
(store, then run the callback, which is `_onChange`). -/
def setPositionXY (t : TransformState) (x y : ℚ) : TransformState :=
  if t.position.x ≠ x ∨ t.position.y ≠ y then onChange { t with position := ⟨x, y⟩ } else t

/-- Embedding of `transform.scale.set(x, y)`. -/
def setScaleXY (t : TransformState) (x y : ℚ) : TransformState :=
  if t.scale.x ≠ x ∨ t.scale.y ≠ y then onChange { t with scale := ⟨x, y⟩ } else t

/-- Embedding of `transform.pivot.set(x, y)`. -/
def setPivotXY (t : TransformState) (x y : ℚ) : TransformState :=
  if t.pivot.x ≠ x ∨ t.pivot.y ≠ y then onChange { t with pivot := ⟨x, y⟩ } else t

/-- Embedding of `transform.position.x = v` (the ObservablePoint `x=` setter). -/
def setPositionX (t : TransformState) (v : ℚ) : TransformState :=
  if t.position.x ≠ v then onChange { t with position := ⟨v, t.position.y⟩ } else t

/-- Embedding of `transform.position.y = v`. -/
def setPositionY (t : TransformState) (v : ℚ) : TransformState :=
  if t.position.y ≠ v then onChange { t with position := ⟨t.position.x, v⟩ } else t

/-- Embedding of `transform.scale.x = v`. -/
def setScaleX (t : TransformState) (v : ℚ) : TransformState :=
  if t.scale.x ≠ v then onChange { t with scale := ⟨v, t.scale.y⟩ } else t

/-- Embedding of `transform.scale.y = v`. -/
def setScaleY (t : TransformState) (v : ℚ) : TransformState :=
  if t.scale.y ≠ v then onChange { t with scale := ⟨t.scale.x, v⟩ } else t

/-- Embedding of `transform.skew.x = v`.  The skew point's callback is `_onChange` (see
the constructor, line 448): the trig cache is NOT recomputed here. -/
def setSkewX (t : TransformState) (v : ℚ) : TransformState :=
  if t.skew.x ≠ v then onChange { t with skew := ⟨v, t.skew.y⟩ } else t

/-- Embedding of `transform.skew.y = v`; callback `_onChange`, no trig recompute. -/
def setSkewY (t : TransformState) (v : ℚ) : TransformState :=
  if t.skew.y ≠ v then onChange { t with skew := ⟨t.skew.x, v⟩ } else t

/-- Embedding of `Transform.updateTransform(parentTransform)` (lines 511-549): first
recompute the local matrix when `_localID != _currentLocalID` (setting
`_parentID = -1` to force a world update), then recompute the world matrix
when `_parentID != parentTransform._worldID` (append of the local matrix
with the parent's world matrix), setting `_parentID` to the parent's
`_worldID` and incrementing `_worldID`. -/
def updateTransform (t : TransformState) (parent : TransformState) : TransformState :=
  let t1 :=
    if t.localID ≠ t.currentLocalID then
      let la := t.cx * t.scale.x
      let lb := t.sx * t.scale.x
      let lc := t.cy * t.scale.y
      let ld := t.sy * t.scale.y
      let ltx := t.position.x - (t.pivot.x * la + t.pivot.y * lc)
      let lty := t.position.y - (t.pivot.x * lb + t.pivot.y * ld)
      { t with
        localTransform := ⟨la, lb, lc, ld, ltx, lty⟩
        currentLocalID := t.localID
        parentID := -1 }
    else t
  if t1.parentID ≠ parent.worldID then
    let lt := t1.localTransform
    let pt := parent.worldTransform
    { t1 with
      worldTransform :=
        ⟨lt.a * pt.a + lt.b * pt.c,
         lt.a * pt.b + lt.b * pt.d,
         lt.c * pt.a + lt.d * pt.c,
         lt.c * pt.b + lt.d * pt.d,
         lt.tx * pt.a + lt.ty * pt.c + pt.tx,
         lt.tx * pt.b + lt.ty * pt.d + pt.ty⟩
      parentID := parent.worldID
      worldID := t1.worldID + 1 }
  else t1

end TransformState

/-- States a Transform can actually reach: the constructor state, closed
under the mutators and under `updateTransform` against a reachable
parent. -/
inductive Reachable : TransformState → Prop
  | init : Reachable .initial
  | posXY (t x y) : Reachable t → Reachable (t.setPositionXY x y)
  | posX (t v) : Reachable t → Reachable (t.setPositionX v)
  | posY (t v) : Reachable t → Reachable (t.setPositionY v)
  | sclXY (t x y) : Reachable t → Reachable (t.setScaleXY x y)
  | sclX (t v) : Reachable t → Reachable (t.setScaleX v)
  | sclY (t v) : Reachable t → Reachable (t.setScaleY v)
  | pivXY (t x y) : Reachable t → Reachable (t.setPivotXY x y)
  | skwX (t v) : Reachable t → Reachable (t.setSkewX v)
  | skwY (t v) : Reachable t → Reachable (t.setSkewY v)
  | rot (ops t v) : Reachable t → Reachable (TransformState.setRotation ops t v)
  | upd (t p) : Reachable t → Reachable p → Reachable (t.updateTransform p)

/-- The threshold constant 0.00001 of `Matrix.decompose`. -/
def decomposeEps : ℚ := 1 / 100000

/-- Embedding of `Matrix.decompose(transform)` (matrix.dart lines 282-317).  Writes the
recovered rotation/skew/scale/position into the transform through its
setters: `transform.rotation = r` goes through the rotation setter (which
recomputes the trig cache), `transform.skew.x = ...` etc. go through the
observable-point setters.  `transform.skew.x = transform.skew.y = 0`
assigns y first, then x. -/
def Matrix.decompose (ops : MathOps) (m : Matrix) (t : TransformState) : TransformState :=
  let skewX := -ops.atan2 (-m.c) m.d
  let skewY := ops.atan2 m.b m.a
  let delta := |skewX + skewY|
  let t1 :=
    if delta < decomposeEps ∨ |ratPI * 2 - delta| < decomposeEps then
      let ta := TransformState.setRotation ops t skewY
      let tb :=
        if m.a < 0 ∧ 0 ≤ m.d then
          TransformState.setRotation ops ta
            (ta.rotation + (if ta.rotation ≤ 0 then ratPI else -ratPI))
        else ta
      (tb.setSkewY 0).setSkewX 0
    else
      ((TransformState.setRotation ops t 0).setSkewX skewX).setSkewY skewY
  let t2 := (t1.setScaleX (ops.sqrt (m.a * m.a + m.b * m.b))).setScaleY
    (ops.sqrt (m.c * m.c + m.d * m.d))
  (t2.setPositionX m.tx).setPositionY m.ty

/-! ### The default-result path of apply/applyInverse (C10) -/

/-- The `Point` constructor (part_003 lines 15-18): both optional
parameters default to absent (null) and the body asserts both are
non-null.  `none` input models an absent argument; a `none` result models
the assertion failing. -/
def mkPointChecked : Option ℚ → Option ℚ → Option Pt
  | some x, some y => some ⟨x, y⟩
  | _, _ => none

/-- Embedding of `Matrix.apply(pos, {result})` with the result-point plumbing
(lines 117-126): `result ??= new Point()` constructs a Point with both
arguments absent when no result point is supplied; afterwards
`result.set(...)` overwrites both coordinates.  A `none` overall result
models the constructor assertion failing. -/
def Matrix.applyOpt (m : Matrix) (pos : Pt) (result : Option Pt) : Option Pt :=
  let r : Option Pt :=
    match result with
    | some r => some r
    | none => mkPointChecked none none
  match r with
  | none => none
  | some _ => some (m.applyVal pos)

/-- Embedding of `Matrix.applyInverse(pos, {result})` with the same
`result ??= new Point()` plumbing (lines 136-149). -/
def Matrix.applyInverseOpt (m : Matrix) (pos : Pt) (result : Option DPt) : Option DPt :=
  let r : Option DPt :=
    match result with
    | some r => some r
    | none => (mkPointChecked none none).map (fun p => ⟨some p.x, some p.y⟩)
  match r with
  | none => none
  | some _ => some (m.applyInverse pos)

/-- A concrete instance of the abstract dart:math operations, used to
evaluate the embedding at concrete inputs.  Its cosine distinguishes the
argument 0 from the argument 1, which is all a counterexample needs
(the real cosine likewise has cos 0 = 1 and cos 1 ≠ 1). -/
def testOps : MathOps where
  cos := fun q => if q = 0 then 1 else 0
  sin := fun _ => 0
  atan2 := fun _ _ => 0
  sqrt := fun _ => 0
  sqrt_nonneg := fun _ => le_refl 0

/-! ## Helper lemmas about the Transform setters -/

namespace TransformState

@[simp] theorem setPositionX_position_x (t : TransformState) (v : ℚ) :
    (t.setPositionX v).position.x = v := by
  unfold setPositionX onChange; split_ifs with h
  · rfl
  · push_neg at h; exact h

@[simp] theorem setPositionX_position_y (t : TransformState) (v : ℚ) :
    (t.setPositionX v).position.y = t.position.y := by
  unfold setPositionX onChange; split_ifs <;> rfl

@[simp] theorem setPositionY_position_y (t : TransformState) (v : ℚ) :
    (t.setPositionY v).position.y = v := by
  unfold setPositionY onChange; split_ifs with h
  · rfl
  · push_neg at h; exact h

@[simp] theorem setPositionY_position_x (t : TransformState) (v : ℚ) :
    (t.setPositionY v).position.x = t.position.x := by
  unfold setPositionY onChange; split_ifs <;> rfl

@[simp] theorem setPositionX_scale (t : TransformState) (v : ℚ) :
    (t.setPositionX v).scale = t.scale := by
  unfold setPositionX onChange; split_ifs <;> rfl

@[simp] theorem setPositionY_scale (t : TransformState) (v : ℚ) :
    (t.setPositionY v).scale = t.scale := by
  unfold setPositionY onChange; split_ifs <;> rfl

@[simp] theorem setPositionX_skew (t : TransformState) (v : ℚ) :
    (t.setPositionX v).skew = t.skew := by
  unfold setPositionX onChange; split_ifs <;> rfl

@[simp] theorem setPositionY_skew (t : TransformState) (v : ℚ) :
    (t.setPositionY v).skew = t.skew := by
  unfold setPositionY onChange; split_ifs <;> rfl

@[simp] theorem setPositionX_rotation (t : TransformState) (v : ℚ) :
    (t.setPositionX v).rotation = t.rotation := by
  unfold setPositionX onChange; split_ifs <;> rfl

@[simp] theorem setPositionY_rotation (t : TransformState) (v : ℚ) :
    (t.setPositionY v).rotation = t.rotation := by
  unfold setPositionY onChange; split_ifs <;> rfl

@[simp] theorem setScaleX_scale_x (t : TransformState) (v : ℚ) :
    (t.setScaleX v).scale.x = v := by
  unfold setScaleX onChange; split_ifs with h
  · rfl
  · push_neg at h; exact h

@[simp] theorem setScaleX_scale_y (t : TransformState) (v : ℚ) :
    (t.setScaleX v).scale.y = t.scale.y := by
  unfold setScaleX onChange; split_ifs <;> rfl

@[simp] theorem setScaleY_scale_y (t : TransformState) (v : ℚ) :
    (t.setScaleY v).scale.y = v := by
  unfold setScaleY onChange; split_ifs with h
  · rfl
  · push_neg at h; exact h

@[simp] theorem setScaleY_scale_x (t : TransformState) (v : ℚ) :
    (t.setScaleY v).scale.x = t.scale.x := by
  unfold setScaleY onChange; split_ifs <;> rfl

@[simp] theorem setScaleX_position (t : TransformState) (v : ℚ) :
    (t.setScaleX v).position = t.position := by
  unfold setScaleX onChange; split_ifs <;> rfl

@[simp] theorem setScaleY_position (t : TransformState) (v : ℚ) :
    (t.setScaleY v).position = t.position := by
  unfold setScaleY onChange; split_ifs <;> rfl

@[simp] theorem setScaleX_skew (t : TransformState) (v : ℚ) :
    (t.setScaleX v).skew = t.skew := by
  unfold setScaleX onChange; split_ifs <;> rfl

@[simp] theorem setScaleY_skew (t : TransformState) (v : ℚ) :
    (t.setScaleY v).skew = t.skew := by
  unfold setScaleY onChange; split_ifs <;> rfl

@[simp] theorem setScaleX_rotation (t : TransformState) (v : ℚ) :
    (t.setScaleX v).rotation = t.rotation := by
  unfold setScaleX onChange; split_ifs <;> rfl

@[simp] theorem setScaleY_rotation (t : TransformState) (v : ℚ) :
    (t.setScaleY v).rotation = t.rotation := by
  unfold setScaleY onChange; split_ifs <;> rfl

@[simp] theorem setSkewX_skew_x (t : TransformState) (v : ℚ) :
    (t.setSkewX v).skew.x = v := by
  unfold setSkewX onChange; split_ifs with h
  · rfl
  · push_neg at h; exact h

@[simp] theorem setSkewX_skew_y (t : TransformState) (v : ℚ) :
    (t.setSkewX v).skew.y = t.skew.y := by
  unfold setSkewX onChange; split_ifs <;> rfl

@[simp] theorem setSkewY_skew_y (t : TransformState) (v : ℚ) :
    (t.setSkewY v).skew.y = v := by
  unfold setSkewY onChange; split_ifs with h
  · rfl
  · push_neg at h; exact h

@[simp] theorem setSkewY_skew_x (t : TransformState) (v : ℚ) :
    (t.setSkewY v).skew.x = t.skew.x := by
  unfold setSkewY onChange; split_ifs <;> rfl

@[simp] theorem setSkewX_rotation (t : TransformState) (v : ℚ) :
    (t.setSkewX v).rotation = t.rotation := by
  unfold setSkewX onChange; split_ifs <;> rfl

@[simp] theorem setSkewY_rotation (t : TransformState) (v : ℚ) :
    (t.setSkewY v).rotation = t.rotation := by
  unfold setSkewY onChange; split_ifs <;> rfl

@[simp] theorem setSkewX_position (t : TransformState) (v : ℚ) :
    (t.setSkewX v).position = t.position := by
  unfold setSkewX onChange; split_ifs <;> rfl

@[simp] theorem setSkewY_position (t : TransformState) (v : ℚ) :
    (t.setSkewY v).position = t.position := by
  unfold setSkewY onChange; split_ifs <;> rfl

@[simp] theorem setSkewX_scale (t : TransformState) (v : ℚ) :
    (t.setSkewX v).scale = t.scale := by
  unfold setSkewX onChange; split_ifs <;> rfl

@[simp] theorem setSkewY_scale (t : TransformState) (v : ℚ) :
    (t.setSkewY v).scale = t.scale := by
  unfold setSkewY onChange; split_ifs <;> rfl

@[simp] theorem setRotation_rotation (ops : MathOps) (t : TransformState) (v : ℚ) :
    (setRotation ops t v).rotation = v := rfl

@[simp] theorem setRotation_skew (ops : MathOps) (t : TransformState) (v : ℚ) :
    (setRotation ops t v).skew = t.skew := rfl

@[simp] theorem setRotation_scale (ops : MathOps) (t : TransformState) (v : ℚ) :
    (setRotation ops t v).scale = t.scale := rfl

@[simp] theorem setRotation_position (ops : MathOps) (t : TransformState) (v : ℚ) :
    (setRotation ops t v).position = t.position := rfl

end TransformState

/-- Every mutator and `updateTransform` keeps `worldID` non-negative, so a
reachable Transform never has `worldID = -1` (the sentinel `updateTransform`
plants in `parentID` to force a world recompute). -/
theorem Reachable.worldID_nonneg {t : TransformState} (h : Reachable t) :
    0 ≤ t.worldID := by
  induction h with
  | init => exact le_refl 0
  | posXY t x y _ ih =>
      unfold TransformState.setPositionXY TransformState.onChange; split_ifs <;> exact ih
  | posX t v _ ih =>
      unfold TransformState.setPositionX TransformState.onChange; split_ifs <;> exact ih
  | posY t v _ ih =>
      unfold TransformState.setPositionY TransformState.onChange; split_ifs <;> exact ih
  | sclXY t x y _ ih =>
      unfold TransformState.setScaleXY TransformState.onChange; split_ifs <;> exact ih
  | sclX t v _ ih =>
      unfold TransformState.setScaleX TransformState.onChange; split_ifs <;> exact ih
  | sclY t v _ ih =>
      unfold TransformState.setScaleY TransformState.onChange; split_ifs <;> exact ih
  | pivXY t x y _ ih =>
      unfold TransformState.setPivotXY TransformState.onChange; split_ifs <;> exact ih
  | skwX t v _ ih =>
      unfold TransformState.setSkewX TransformState.onChange; split_ifs <;> exact ih
  | skwY t v _ ih =>
      unfold TransformState.setSkewY TransformState.onChange; split_ifs <;> exact ih
  | rot ops t v _ ih =>
      exact ih
  | upd t p _ _ ih ihp =>
      unfold TransformState.updateTransform
      dsimp only
      split_ifs
      all_goals try dsimp only
      all_goals omega

/-! ## Claim theorems -/

/-- C1: for every ObservablePoint and every mutating operation on it
(`set(x,y)`, `copyFrom(p)`, assigning `x`, assigning `y`), the registered
callback is invoked exactly once by that operation if the new value
differs from the stored value in at least one component, and not at all if
both components are unchanged.  The callback is instantiated with a
counter starting at 0, so the final counter is the number of
invocations. -/
theorem c1_observable_callback_fires_iff_changed (p : OPoint) (x y : ℚ) (q : Pt) (v w : ℚ) :
    ((p.set (fun n => n + 1) (0 : ℕ) x y).2 = 1 ↔ (p.x ≠ x ∨ p.y ≠ y)) ∧
    ((p.set (fun n => n + 1) (0 : ℕ) x y).2 = 0 ↔ (p.x = x ∧ p.y = y)) ∧
    ((p.copyFrom (fun n => n + 1) (0 : ℕ) q).2 = 1 ↔ (p.x ≠ q.x ∨ p.y ≠ q.y)) ∧
    ((p.copyFrom (fun n => n + 1) (0 : ℕ) q).2 = 0 ↔ (p.x = q.x ∧ p.y = q.y)) ∧
    ((p.setX (fun n => n + 1) (0 : ℕ) v).2 = 1 ↔ p.x ≠ v) ∧
    ((p.setX (fun n => n + 1) (0 : ℕ) v).2 = 0 ↔ p.x = v) ∧
    ((p.setY (fun n => n + 1) (0 : ℕ) w).2 = 1 ↔ p.y ≠ w) ∧
    ((p.setY (fun n => n + 1) (0 : ℕ) w).2 = 0 ↔ p.y = w) := by
  unfold OPoint.set OPoint.copyFrom OPoint.setX OPoint.setY
  refine ⟨?_, ?_, ?_, ?_, ?_, ?_, ?_, ?_⟩ <;> split_ifs with h <;>
    simp_all <;> tauto

/-- C2 (code bug): mutating a skew component does NOT recompute the four
cached trigonometric scalars, because the constructor wires the skew
ObservablePoint to `_onChange` rather than `_updateSkew`.  After
`skew.y = 1` on a fresh Transform, the cache still holds the constructor
values (1, 0, 0, 1), although a recompute (`_updateSkew`) would store
`cos(rotation + skew.y) = cos 1` (= 0 under `testOps`, which separates the
arguments 0 and 1 exactly as the real cosine does) into `cx`. -/
theorem c2_skew_mutation_skips_trig_recompute :
    (TransformState.initial.setSkewY 1).skew.y = 1 ∧
    (TransformState.initial.setSkewY 1).localID = 1 ∧
    (TransformState.initial.setSkewY 1).cx = 1 ∧
    (TransformState.initial.setSkewY 1).sx = 0 ∧
    (TransformState.initial.setSkewY 1).cy = 0 ∧
    (TransformState.initial.setSkewY 1).sy = 1 ∧
    testOps.cos ((TransformState.initial.setSkewY 1).rotation +
      (TransformState.initial.setSkewY 1).skew.y) = 0 ∧
    (TransformState.updateSkew testOps (TransformState.initial.setSkewY 1)).cx = 0 := by
  norm_num [TransformState.setSkewY, TransformState.onChange, TransformState.initial,
    TransformState.updateSkew, testOps]

/-- C3 (code bug): the freshly constructed Transform already violates the
invariant that `localMatrix` matches the matrix determined by the current
fields whenever `currentLocalID == localID`.  In the constructor state the
two counters are equal and `localMatrix.a = 1` (identity), but the matrix
determined by the current values has `a = cos(rotation + skew.y) * scale.x
= cos 0 * 0 = 0`, because the constructor initialises scale to (0, 0). -/
theorem c3_fresh_transform_violates_local_matrix_invariant :
    TransformState.initial.currentLocalID = TransformState.initial.localID ∧
    TransformState.initial.scale.x = 0 ∧
    TransformState.initial.localTransform.a = 1 ∧
    TransformState.initial.localTransform.a ≠
      testOps.cos (TransformState.initial.rotation + TransformState.initial.skew.y) *
        TransformState.initial.scale.x := by
  norm_num [TransformState.initial, Matrix.identityM, testOps]

/-- C9: `Matrix.set(a, b, c, d, tx, ty)` never modifies the matrix: the
parameters shadow the six fields, and each statement assigns a parameter
to itself, so all six fields of the receiver are left unchanged. -/
theorem c9_matrix_set_is_noop (m : Matrix) (a b c d tx ty : ℚ) :
    Matrix.set m a b c d tx ty = m := rfl

/-- C10: calling `apply` or `applyInverse` without a result point
constructs `new Point()` whose two absent (null) arguments violate the
Point constructor's non-null assertions, so the default-result path fails
the assertion (result `none`), while the explicit-result path completes
and returns the computed point. -/
theorem c10_default_result_point_fails_assertion (m : Matrix) (pos : Pt) (r : Pt) (rd : DPt) :
    mkPointChecked none none = none ∧
    m.applyOpt pos none = none ∧
    m.applyInverseOpt pos none = none ∧
    m.applyOpt pos (some r) = some (m.applyVal pos) ∧
    m.applyInverseOpt pos (some rd) = some (m.applyInverse pos) := by
  refine ⟨rfl, rfl, rfl, rfl, rfl⟩

/-- C6 counterexample: on the matrix (1,0,0,0,0,0), whose determinant
a*d - b*c is zero, `applyInverse` does not fail with any
DegenerateTransform condition: it completes normally and silently returns
a point with both coordinates non-finite (Infinity/NaN), and `invert`
likewise returns a matrix with all six fields non-finite. -/
theorem c6_counterexample_no_failure_on_zero_determinant :
    (Matrix.mk 1 0 0 0 0 0).a * (Matrix.mk 1 0 0 0 0 0).d -
      (Matrix.mk 1 0 0 0 0 0).b * (Matrix.mk 1 0 0 0 0 0).c = 0 ∧
    Matrix.applyInverse (Matrix.mk 1 0 0 0 0 0) (Pt.mk 1 2) = DPt.mk none none ∧
    Matrix.invert (Matrix.mk 1 0 0 0 0 0) =
      DMatrix.mk none none none none none none := by
  norm_num [Matrix.applyInverse, Matrix.invert, dAdd, dMul, dDiv]

/-- C6 amended: `applyInverse` computes the shared denominator
n = a*d - b*c from the forward matrix, but performs the division
unconditionally: when n = 0 it silently produces non-finite
(Infinity/NaN) output coordinates instead of failing, and `invert`
likewise produces six non-finite fields when the determinant is zero. -/
theorem c6_zero_determinant_produces_nonfinite (m : Matrix) (p : Pt)
    (h : m.a * m.d - m.b * m.c = 0) :
    (m.applyInverse p).x = none ∧ (m.applyInverse p).y = none ∧
    (m.invert).a = none ∧ (m.invert).b = none ∧ (m.invert).c = none ∧
    (m.invert).d = none ∧ (m.invert).tx = none ∧ (m.invert).ty = none := by
  have h' : m.a * m.d + m.c * -m.b = 0 := by linear_combination h
  have h2 : m.a * m.d + -(m.c * m.b) = 0 := by linear_combination h
  simp [Matrix.applyInverse, Matrix.invert, dAdd, dMul, dDiv, h, h', h2]

/-- Witness for the amended C6 theorem at the degenerate matrix
(2,4,1,2,0,0). -/
theorem c6_zero_determinant_produces_nonfinite_witness :
    ((Matrix.mk 2 4 1 2 0 0).a * (Matrix.mk 2 4 1 2 0 0).d -
      (Matrix.mk 2 4 1 2 0 0).b * (Matrix.mk 2 4 1 2 0 0).c = 0) ∧
    (((Matrix.mk 2 4 1 2 0 0).applyInverse (Pt.mk 3 5)).x = none ∧
     ((Matrix.mk 2 4 1 2 0 0).applyInverse (Pt.mk 3 5)).y = none ∧
     ((Matrix.mk 2 4 1 2 0 0).invert).a = none ∧
     ((Matrix.mk 2 4 1 2 0 0).invert).b = none ∧
     ((Matrix.mk 2 4 1 2 0 0).invert).c = none ∧
     ((Matrix.mk 2 4 1 2 0 0).invert).d = none ∧
     ((Matrix.mk 2 4 1 2 0 0).invert).tx = none ∧
     ((Matrix.mk 2 4 1 2 0 0).invert).ty = none) :=
  ⟨by norm_num,
   c6_zero_determinant_produces_nonfinite (Matrix.mk 2 4 1 2 0 0) (Pt.mk 3 5) (by norm_num)⟩

/-- C7: for every matrix with nonzero determinant a*d - b*c and every
point p, applying the matrix and then `applyInverse` returns p exactly
(both coordinates finite and equal to the originals). -/
theorem c7_applyInverse_apply_roundtrip (m : Matrix) (p : Pt)
    (h : m.a * m.d - m.b * m.c ≠ 0) :
    m.applyInverse (m.applyVal p) = DPt.mk (some p.x) (some p.y) := by
  have h' : m.a * m.d + m.c * -m.b ≠ 0 := by
    intro hc; exact h (by linear_combination hc)
  have hn1 : m.d * m.a - m.c * m.b ≠ 0 := by
    intro hc; exact h (by linear_combination hc)
  simp only [Matrix.applyInverse, Matrix.applyVal, dAdd, dMul, dDiv, if_neg h']
  have hn3 : m.a * m.d - m.c * m.b ≠ 0 := by
    intro hc; exact h (by linear_combination hc)
  refine congrArg₂ DPt.mk (congrArg some ?_) (congrArg some ?_) <;> ring_nf
  · have e1 : m.d * m.a * (m.d * m.a - m.c * m.b)⁻¹ -
        m.c * m.b * (m.d * m.a - m.c * m.b)⁻¹ = 1 := by
      rw [← sub_mul]; exact mul_inv_cancel₀ hn1
    linear_combination p.x * e1
  · have e2 : m.a * m.d * (m.a * m.d - m.c * m.b)⁻¹ -
        m.c * m.b * (m.a * m.d - m.c * m.b)⁻¹ = 1 := by
      rw [← sub_mul]; exact mul_inv_cancel₀ hn3
    linear_combination p.y * e2

/-- Witness for C7 at the matrix (2,1,1,3,10,20) and point (4,7). -/
theorem c7_applyInverse_apply_roundtrip_witness :
    ((Matrix.mk 2 1 1 3 10 20).a * (Matrix.mk 2 1 1 3 10 20).d -
      (Matrix.mk 2 1 1 3 10 20).b * (Matrix.mk 2 1 1 3 10 20).c ≠ 0) ∧
    (Matrix.mk 2 1 1 3 10 20).applyInverse
      ((Matrix.mk 2 1 1 3 10 20).applyVal (Pt.mk 4 7)) = DPt.mk (some 4) (some 7) :=
  ⟨by norm_num,
   c7_applyInverse_apply_roundtrip (Matrix.mk 2 1 1 3 10 20) (Pt.mk 4 7) (by norm_num)⟩

/-- C4: when the local matrix was just recomputed (localID differs from
currentLocalID, which forces parentID to the sentinel -1) or parentID
differs from the parent's worldID, `updateTransform(parent)` sets the
world matrix to the append-composition of the (updated) local matrix with
the parent's current world matrix, sets parentID to the parent's worldID,
and increments worldID.  The parent is a reachable Transform, so its
worldID is never the sentinel -1.  In particular a Transform with
position=(100,50), scale=(2,2), pivot=(0,0), rotation=0 updated against
the identity (fresh) Transform gets worldMatrix (2,0,0,2,100,50). -/
theorem c4_updateTransform_composes_with_parent (t parent : TransformState)
    (hp : Reachable parent)
    (h : t.localID ≠ t.currentLocalID ∨ t.parentID ≠ parent.worldID) :
    (t.updateTransform parent).worldTransform = Matrix.mk
      ((t.updateTransform parent).localTransform.a * parent.worldTransform.a +
        (t.updateTransform parent).localTransform.b * parent.worldTransform.c)
      ((t.updateTransform parent).localTransform.a * parent.worldTransform.b +
        (t.updateTransform parent).localTransform.b * parent.worldTransform.d)
      ((t.updateTransform parent).localTransform.c * parent.worldTransform.a +
        (t.updateTransform parent).localTransform.d * parent.worldTransform.c)
      ((t.updateTransform parent).localTransform.c * parent.worldTransform.b +
        (t.updateTransform parent).localTransform.d * parent.worldTransform.d)
      ((t.updateTransform parent).localTransform.tx * parent.worldTransform.a +
        (t.updateTransform parent).localTransform.ty * parent.worldTransform.c +
        parent.worldTransform.tx)
      ((t.updateTransform parent).localTransform.tx * parent.worldTransform.b +
        (t.updateTransform parent).localTransform.ty * parent.worldTransform.d +
        parent.worldTransform.ty) ∧
    (t.updateTransform parent).parentID = parent.worldID ∧
    (t.updateTransform parent).worldID = t.worldID + 1 ∧
    (((TransformState.initial.setPositionXY 100 50).setScaleXY 2 2).updateTransform
        TransformState.initial).worldTransform = Matrix.mk 2 0 0 2 100 50 := by
  have hw : (0 : ℤ) ≤ parent.worldID := hp.worldID_nonneg
  have hscen : (((TransformState.initial.setPositionXY 100 50).setScaleXY 2 2).updateTransform
      TransformState.initial).worldTransform = Matrix.mk 2 0 0 2 100 50 := by
    norm_num [TransformState.updateTransform, TransformState.setPositionXY,
      TransformState.setScaleXY, TransformState.onChange, TransformState.initial,
      Matrix.identityM]
  have main : (t.updateTransform parent).worldTransform = Matrix.mk
      ((t.updateTransform parent).localTransform.a * parent.worldTransform.a +
        (t.updateTransform parent).localTransform.b * parent.worldTransform.c)
      ((t.updateTransform parent).localTransform.a * parent.worldTransform.b +
        (t.updateTransform parent).localTransform.b * parent.worldTransform.d)
      ((t.updateTransform parent).localTransform.c * parent.worldTransform.a +
        (t.updateTransform parent).localTransform.d * parent.worldTransform.c)
      ((t.updateTransform parent).localTransform.c * parent.worldTransform.b +
        (t.updateTransform parent).localTransform.d * parent.worldTransform.d)
      ((t.updateTransform parent).localTransform.tx * parent.worldTransform.a +
        (t.updateTransform parent).localTransform.ty * parent.worldTransform.c +
        parent.worldTransform.tx)
      ((t.updateTransform parent).localTransform.tx * parent.worldTransform.b +
        (t.updateTransform parent).localTransform.ty * parent.worldTransform.d +
        parent.worldTransform.ty) ∧
      (t.updateTransform parent).parentID = parent.worldID ∧
      (t.updateTransform parent).worldID = t.worldID + 1 := by
    by_cases h1 : t.localID = t.currentLocalID
    · have h2 : t.parentID ≠ parent.worldID := by
        rcases h with h | h
        · exact absurd h1 h
        · exact h
      simp [TransformState.updateTransform, h1, h2]
    · have hne : (-1 : ℤ) ≠ parent.worldID := by omega
      simp [TransformState.updateTransform, h1, hne]
  exact ⟨main.1, main.2.1, main.2.2, hscen⟩

/-- Witness for C4: the scenario Transform (position set to (100,50),
scale set to (2,2)) updated against the fresh identity Transform, which is
reachable; its localID (2) differs from its currentLocalID (0). -/
theorem c4_updateTransform_composes_with_parent_witness :
    (((TransformState.initial.setPositionXY 100 50).setScaleXY 2 2).localID ≠
      ((TransformState.initial.setPositionXY 100 50).setScaleXY 2 2).currentLocalID ∨
     ((TransformState.initial.setPositionXY 100 50).setScaleXY 2 2).parentID ≠
      TransformState.initial.worldID) ∧
    ((((TransformState.initial.setPositionXY 100 50).setScaleXY 2 2).updateTransform
        TransformState.initial).parentID = TransformState.initial.worldID ∧
     (((TransformState.initial.setPositionXY 100 50).setScaleXY 2 2).updateTransform
        TransformState.initial).worldID =
      ((TransformState.initial.setPositionXY 100 50).setScaleXY 2 2).worldID + 1) :=
  ⟨Or.inl (by norm_num [TransformState.setPositionXY, TransformState.setScaleXY,
      TransformState.onChange, TransformState.initial]),
   ⟨(c4_updateTransform_composes_with_parent
      ((TransformState.initial.setPositionXY 100 50).setScaleXY 2 2)
      TransformState.initial Reachable.init
      (Or.inl (by norm_num [TransformState.setPositionXY, TransformState.setScaleXY,
        TransformState.onChange, TransformState.initial]))).2.1,
    (c4_updateTransform_composes_with_parent
      ((TransformState.initial.setPositionXY 100 50).setScaleXY 2 2)
      TransformState.initial Reachable.init
      (Or.inl (by norm_num [TransformState.setPositionXY, TransformState.setScaleXY,
        TransformState.onChange, TransformState.initial]))).2.2.1⟩⟩

/-- C5 (code bug): in the 3-node chain root at identity, A moved to
(100,50), B untouched, the sequence root.updateTransform(identity);
A.updateTransform(root); B.updateTransform(A) leaves B with world matrix
(0,0,0,0,100,50): its translation is A's position, but the linear part is
zero -- not the claimed translation matrix (1,0,0,1,100,50) -- because the
constructor initialises scale to (0,0).  Rerunning the same sequence is a
no-op: root, A and B are all unchanged (in particular every worldID). -/
theorem c5_chain_world_matrix_and_idempotence :
    (TransformState.initial.updateTransform TransformState.initial =
      TransformState.initial) ∧
    (TransformState.initial.updateTransform
        ((TransformState.initial.setPositionXY 100 50).updateTransform
          TransformState.initial)).worldTransform = Matrix.mk 0 0 0 0 100 50 ∧
    (TransformState.initial.updateTransform
        ((TransformState.initial.setPositionXY 100 50).updateTransform
          TransformState.initial)).worldTransform ≠ Matrix.mk 1 0 0 1 100 50 ∧
    (((TransformState.initial.setPositionXY 100 50).updateTransform
        TransformState.initial).updateTransform TransformState.initial =
      (TransformState.initial.setPositionXY 100 50).updateTransform
        TransformState.initial) ∧
    ((TransformState.initial.updateTransform
        ((TransformState.initial.setPositionXY 100 50).updateTransform
          TransformState.initial)).updateTransform
        ((TransformState.initial.setPositionXY 100 50).updateTransform
          TransformState.initial) =
      TransformState.initial.updateTransform
        ((TransformState.initial.setPositionXY 100 50).updateTransform
          TransformState.initial)) := by
  norm_num [TransformState.updateTransform, TransformState.setPositionXY,
    TransformState.onChange, TransformState.initial, Matrix.identityM]

/-- C8: `decompose(transform)` computes skewX = -atan2(-c, d) and
skewY = atan2(b, a); when |skewX + skewY| is within 1e-5 of 0 or of 2*pi
it sets rotation to skewY (adding pi when that rotation is <= 0, else
subtracting pi, in the case a < 0 and d >= 0) and zeroes both skew
components; otherwise it sets rotation to 0 and stores skewX and skewY
directly.  Scale is recovered as the non-negative values sqrt(a*a + b*b)
and sqrt(c*c + d*d), and position is set to (tx, ty) verbatim.  All of
this holds for every abstract instantiation of the dart:math
operations. -/
theorem c8_decompose_recovers_components (ops : MathOps) (m : Matrix) (t : TransformState) :
    (Matrix.decompose ops m t).position.x = m.tx ∧
    (Matrix.decompose ops m t).position.y = m.ty ∧
    (Matrix.decompose ops m t).scale.x = ops.sqrt (m.a * m.a + m.b * m.b) ∧
    0 ≤ (Matrix.decompose ops m t).scale.x ∧
    (Matrix.decompose ops m t).scale.y = ops.sqrt (m.c * m.c + m.d * m.d) ∧
    0 ≤ (Matrix.decompose ops m t).scale.y ∧
    (Matrix.decompose ops m t).skew.x =
      (if abs (-ops.atan2 (-m.c) m.d + ops.atan2 m.b m.a) < decomposeEps ∨
          abs (ratPI * 2 - abs (-ops.atan2 (-m.c) m.d + ops.atan2 m.b m.a)) < decomposeEps
       then 0 else -ops.atan2 (-m.c) m.d) ∧
    (Matrix.decompose ops m t).skew.y =
      (if abs (-ops.atan2 (-m.c) m.d + ops.atan2 m.b m.a) < decomposeEps ∨
          abs (ratPI * 2 - abs (-ops.atan2 (-m.c) m.d + ops.atan2 m.b m.a)) < decomposeEps
       then 0 else ops.atan2 m.b m.a) ∧
    (Matrix.decompose ops m t).rotation =
      (if abs (-ops.atan2 (-m.c) m.d + ops.atan2 m.b m.a) < decomposeEps ∨
          abs (ratPI * 2 - abs (-ops.atan2 (-m.c) m.d + ops.atan2 m.b m.a)) < decomposeEps
       then
        (if m.a < 0 ∧ 0 ≤ m.d then
          ops.atan2 m.b m.a + (if ops.atan2 m.b m.a ≤ 0 then ratPI else -ratPI)
         else ops.atan2 m.b m.a)
       else 0) := by
  have hs1 := ops.sqrt_nonneg (m.a * m.a + m.b * m.b)
  have hs2 := ops.sqrt_nonneg (m.c * m.c + m.d * m.d)
  unfold Matrix.decompose
  by_cases hd : abs (-ops.atan2 (-m.c) m.d + ops.atan2 m.b m.a) < decomposeEps ∨
      abs (ratPI * 2 - abs (-ops.atan2 (-m.c) m.d + ops.atan2 m.b m.a)) < decomposeEps
  · by_cases hf : m.a < 0 ∧ 0 ≤ m.d
    · by_cases hr : ops.atan2 m.b m.a ≤ 0
      · simp [hd, hf, hr, hs1, hs2]
      · simp [hd, hf, hr, hs1, hs2]
    · simp [hd, hf, hs1, hs2]
  · simp [hd, hs1, hs2]

end Pixi
